import Mathlib

/-!
Verification of the playback-queue command surface of the `stolfo` music bot
(`src/cogs/music.py`), shallowly embedded in Lean.

Queues are embedded as `List Track`; the library wait-queue used by the
source (`wavelink.WaitQueue`) exposes Python sequence indexing, so the
embedding models Python's (possibly negative) indexing, `IndexError` as
`Option`, and `insert`'s clamping semantics explicitly.
-/

namespace Stolfo

/-- A track request: identifier/URI, display title, duration in
milliseconds, live-stream flag (data model of the spec; `pomice.Track` in
the source). -/
structure Track where
  title : String
  uri : String
  length : Nat
  is_stream : Bool
  deriving Repr, DecidableEq, Inhabited

/-- Resolve a Python-style index `i` against a sequence of length `n`:
`q[i]` succeeds for `-n ≤ i < n`, a negative `i` counting from the back;
anything else raises `IndexError`, modelled as `none`. -/
def pyIdx (n : Nat) (i : Int) : Option Nat :=
  if 0 ≤ i then
    if i < (n : Int) then some i.toNat else none
  else
    if 0 ≤ (n : Int) + i then some ((n : Int) + i).toNat else none

/-- Python `q[i]` on a list: element access with negative indices allowed,
`IndexError` as `none`. -/
def pyGet (q : List α) (i : Int) : Option α :=
  (pyIdx q.length i).bind fun j => q[j]?

/-- Python `del q[i]` on a list: removal with negative indices allowed,
`IndexError` as `none`. -/
def pyDel (q : List α) (i : Int) : Option (List α) :=
  (pyIdx q.length i).map fun j => q.eraseIdx j

/-- Python `q.insert(i, x)` (the semantics of `WaitQueue.put_at_index`):
a negative `i` counts from the back, and the effective position is clamped
into `[0, len(q)]`, so insertion never fails. -/
def pyInsert (q : List α) (i : Int) (x : α) : List α :=
  if i < 0 then
    if i + (q.length : Int) < 0 then q.insertIdx 0 x
    else q.insertIdx (min (i + (q.length : Int)).toNat q.length) x
  else q.insertIdx (min i.toNat q.length) x

/-- Reply sent by the `move` command on success
(`Moved {track.title} to position {to}`). On out-of-range probes the
command silently returns and sends nothing, modelled as `none` below. -/
inductive MoveReply where
  | moved (title : String) (toPos : Int)
  deriving Repr, DecidableEq

/-- The `move` command (`src/cogs/music.py`, `move`): probes
`queue[_from - 1]` and `queue[_to - 1]`, silently returning on
`IndexError`; otherwise reads the track at `_from - 1`, deletes it, and
reinserts it with `put_at_index(_to - 1, track)`. Returns the resulting
queue and the reply, `none` meaning no message was sent. -/
def move (q : List Track) (f t : Int) : List Track × Option MoveReply :=
  match pyGet q (f - 1), pyGet q (t - 1), pyDel q (f - 1) with
  | some track, some _, some q1 =>
      (pyInsert q1 (t - 1) track, some (MoveReply.moved track.title t))
  | _, _, _ => (q, none)

/-- Reply sent by the `remove` command. -/
inductive RemoveReply where
  | emptyQueue
  | invalidTrackNumber
  | removed (title : String)
  deriving Repr, DecidableEq

/-- The `remove` command (`src/cogs/music.py`, `remove`): replies
`The queue is empty!` on an empty queue; replies `Invalid track number!`
when `index < 1 or index > len(queue)`, leaving the queue unchanged;
otherwise deletes `queue[index - 1]` and reports the removed track. -/
def remove (q : List Track) (index : Int) : List Track × RemoveReply :=
  if q.isEmpty then (q, RemoveReply.emptyQueue)
  else if index < 1 ∨ (q.length : Int) < index then (q, RemoveReply.invalidTrackNumber)
  else
    let i := (index - 1).toNat
    (q.eraseIdx i, RemoveReply.removed ((q.getD i default).title))

/-- Reply sent by the `clear` command. -/
inductive ClearReply where
  | nothingToClear
  | cleared (amount : Nat)
  deriving Repr, DecidableEq

/-- The `clear` command (`src/cogs/music.py`, `clear`): on an empty queue
replies `There's nothing to clear!` without touching the queue; otherwise
records the length, empties the queue, and reports that many removed
songs. -/
def clear (q : List Track) : List Track × ClearReply :=
  if q.isEmpty then (q, ClearReply.nothingToClear)
  else ([], ClearReply.cleared q.length)

/-- Connection state of a player session (spec §4.2):
Idle / Connected / Playing / Disconnected. -/
inductive ConnState where
  | idle
  | connected
  | playing
  | disconnected
  deriving Repr, DecidableEq

/-- Modelled from the spec: the player class (`QueuePlayer`, `player.py`)
is not under `src/`; following the spec's PlayerSession, a session holds a
connection-state tag, an optional current track, and the playback queue. -/
structure Player where
  state : ConnState
  current : Option Track
  queue : List Track
  deriving Repr, DecidableEq

/-- Modelled from the spec: `is_playing` of the library player, true
exactly in the Playing state. -/
def Player.isPlaying (p : Player) : Bool :=
  p.state = ConnState.playing

/-- `player.source`, the currently playing track (the source reads
`player.source.title` only when a track is playing). -/
def Player.source (p : Player) : Track :=
  p.current.getD default

/-- An externally visible mutation issued to the audio node. Commands that
issue no call to the node produce an empty action list. -/
inductive Action where
  | stopPlayback
  | forceDisconnect
  | playTrack (t : Track)
  deriving Repr, DecidableEq

/-- Reply sent by the `skip` command. -/
inductive SkipReply where
  | nothingPlaying
  | skipped (title uri : String)
  deriving Repr, DecidableEq

/-- The `skip` command (`src/cogs/music.py`, `skip`): replies
`Nothing is playing!` when the player is not playing; otherwise reports
the skipped track and calls `player.stop()` (advancing happens via the
track-end event). The player's own fields are not touched by the command
itself. -/
def skip (p : Player) : Player × List Action × SkipReply :=
  if ¬ p.isPlaying then
    (p, [], SkipReply.nothingPlaying)
  else
    (p, [Action.stopPlayback], SkipReply.skipped p.source.title p.source.uri)

/-- The result of the external search (`bot.pomice.get_tracks`): either a
playlist with a name and its tracks in order, or a plain result list of
which `play` queues `search[0]`. -/
inductive Search where
  | playlist (name : String) (tracks : List Track)
  | results (tracks : List Track)
  deriving Repr, DecidableEq

/-- Reply sent by the `play` command: the playlist embed with the queued
position span `first-last`, the single-track embed with its queue
position, or no message (single track queued while nothing plays). -/
inductive PlayReply where
  | queuedPlaylist (name : String) (count first last : Nat)
  | queuedTrack (title : String) (position : Nat)
  | noReply
  deriving Repr, DecidableEq

/-- `player.play(player.queue.get())`: pop the front of the queue and
begin playing it (state transition per spec `start_next`); `none` models
the raise on an empty queue. -/
def startQueued (p : Player) : Option (Player × List Action) :=
  match p.queue with
  | [] => none
  | track :: rest =>
      some ({ p with state := ConnState.playing, current := some track, queue := rest },
            [Action.playTrack track])

/-- The `play` command (`src/cogs/music.py`, `play`): appends every
resolved track to the back of the queue (for a plain result list, only
`search[0]`); then, if nothing is playing, pops the front of the queue and
starts it. `none` models an uncaught exception (empty result list). -/
def play (p : Player) (search : Search) : Option (Player × List Action × PlayReply) := do
  let (q1, reply) ← match search with
    | Search.playlist name tracks =>
        some (p.queue ++ tracks,
          PlayReply.queuedPlaylist name tracks.length (p.queue.length + 1)
            (p.queue.length + tracks.length))
    | Search.results tracks => do
        let track ← tracks[0]?
        some (p.queue ++ [track],
          if p.isPlaying then PlayReply.queuedTrack track.title (p.queue.length + 1)
          else PlayReply.noReply)
  let p1 : Player := { p with queue := q1 }
  if p1.isPlaying then
    some (p1, [], reply)
  else
    match startQueued p1 with
    | some (p2, acts) => some (p2, acts, reply)
    | none => none

/-- Discrete-time model of `on_pomice_track_end` (`src/cogs/music.py`):
`async with timeout(300): await player.play(await player.queue.get_wait())`.
The input gives the instant (seconds after the track-end event) at which
the next queue item becomes available together with that item, or `none`
when no item ever arrives; an item already queued arrives at instant `0`.
If the item arrives before the 300-second deadline the wait is cancelled
and the item is played; otherwise the `TimeoutError` branch force-
disconnects the player. -/
def trackEnd (p : Player) (arrival : Option (Nat × Track)) : Player × List Action :=
  match arrival with
  | some (instant, track) =>
      if instant < 300 then
        ({ p with state := ConnState.playing, current := some track },
         [Action.playTrack track])
      else
        ({ p with state := ConnState.disconnected, current := none },
         [Action.forceDisconnect])
  | none =>
      ({ p with state := ConnState.disconnected, current := none },
       [Action.forceDisconnect])

/-- A member's voice state after an update: the channel it is now in, if
any. -/
structure VoiceState where
  channel : Option Nat
  deriving Repr, DecidableEq

/-- The `on_voice_state_update` listener (`src/cogs/music.py`): when the
update concerns the bot's own member, the after-state has no channel, and
a voice client exists, it clears the queue, stops playback, and force-
disconnects; in every other case it does nothing. It sends no message in
either case. -/
def on_voice_state_update (botId memberId : Nat) (voiceClient : Option Player)
    (after : VoiceState) : Option Player × List Action :=
  match voiceClient with
  | some p =>
      if memberId = botId ∧ after.channel = none then
        (some { p with queue := [], current := none, state := ConnState.disconnected },
         [Action.stopPlayback, Action.forceDisconnect])
      else
        (some p, [])
  | none => (none, [])

/-- An unexpected failure raised inside a command and wrapped by the
framework: the original error's type name, message, and formatted
traceback. -/
structure InvokeError where
  typeName : String
  message : String
  traceback : String
  deriving Repr, DecidableEq

/-- An error reaching `cog_command_error`: either a `UserError` carrying a
user-facing message, or the framework's wrapper around an unexpected
failure. -/
inductive CmdError where
  | userError (message : String)
  | commandInvokeError (e : InvokeError)
  deriving Repr, DecidableEq

/-- What reaches the operator log channel: the traceback inlined in the
embed, or attached as a named file. -/
inductive LogPayload where
  | inlined (content : String)
  | attachedFile (fileName content : String)
  deriving Repr, DecidableEq

/-- The `cog_command_error` handler (`src/cogs/music.py`): a `UserError`
is rendered to the caller as its message and nothing is logged; any other
command failure is rendered to the caller as `{type}: {message}` and its
full traceback is forwarded to the log channel — inlined when its length
is at most 4000 characters, attached as a file named `traceback.txt`
otherwise. Returns the caller-facing message and the log payload. -/
def cog_command_error (err : CmdError) : String × Option LogPayload :=
  match err with
  | CmdError.userError m => (m, none)
  | CmdError.commandInvokeError e =>
      (e.typeName ++ ": " ++ e.message,
       if e.traceback.length ≤ 4000 then some (LogPayload.inlined e.traceback)
       else some (LogPayload.attachedFile "traceback.txt" e.traceback))

/-! ### Concrete tracks used by the example-based statements -/

def tA : Track := { title := "A", uri := "a", length := 1000, is_stream := false }

def tB : Track := { title := "B", uri := "b", length := 1000, is_stream := false }

def tC : Track := { title := "C", uri := "c", length := 1000, is_stream := false }

/-! ### Basic facts about the Python indexing primitives -/

theorem pyIdx_eq_some_of_nonneg {n : Nat} {i : Int} (h0 : 0 ≤ i) (h1 : i < (n : Int)) :
    pyIdx n i = some i.toNat := by
  unfold pyIdx
  rw [if_pos h0, if_pos h1]

theorem pyIdx_eq_some_of_neg {n : Nat} {i : Int} (h0 : i < 0) (h1 : 0 ≤ (n : Int) + i) :
    pyIdx n i = some ((n : Int) + i).toNat := by
  unfold pyIdx
  rw [if_neg (by omega), if_pos h1]

theorem pyIdx_eq_none {n : Nat} {i : Int} (h : (n : Int) ≤ i ∨ i < -(n : Int)) :
    pyIdx n i = none := by
  unfold pyIdx
  rcases h with h | h
  · rw [if_pos (by omega), if_neg (by omega)]
  · rw [if_neg (by omega), if_neg (by omega)]

theorem pyIdx_lt {n : Nat} {i : Int} {j : Nat} (h : pyIdx n i = some j) : j < n := by
  unfold pyIdx at h
  split at h <;> split at h <;> simp_all <;> omega

theorem pyGet_eq_getElem? {q : List α} {i : Int} {j : Nat}
    (h : pyIdx q.length i = some j) : pyGet q i = q[j]? := by
  unfold pyGet
  rw [h]
  rfl

theorem pyGet_eq_none {q : List α} {i : Int}
    (h : pyIdx q.length i = none) : pyGet q i = none := by
  unfold pyGet
  rw [h]
  rfl

theorem pyDel_eq_some {q : List α} {i : Int} {j : Nat}
    (h : pyIdx q.length i = some j) : pyDel q i = some (q.eraseIdx j) := by
  unfold pyDel
  rw [h]
  rfl

theorem pyGet_of_valid [Inhabited α] {q : List α} {i : Int}
    (h0 : 0 ≤ i) (h1 : i < (q.length : Int)) :
    pyGet q i = some (q.getD i.toNat default) := by
  have hi := pyIdx_eq_some_of_nonneg h0 h1
  have hj : i.toNat < q.length := pyIdx_lt hi
  rw [pyGet_eq_getElem? hi, List.getElem?_eq_getElem hj]
  simp [List.getD_eq_getElem?_getD, List.getElem?_eq_getElem hj]

theorem pyGet_of_neg [Inhabited α] {q : List α} {i : Int}
    (h0 : i < 0) (h1 : 0 ≤ (q.length : Int) + i) :
    pyGet q i = some (q.getD ((q.length : Int) + i).toNat default) := by
  have hi := pyIdx_eq_some_of_neg h0 h1
  have hj : ((q.length : Int) + i).toNat < q.length := pyIdx_lt hi
  rw [pyGet_eq_getElem? hi, List.getElem?_eq_getElem hj]
  simp [List.getD_eq_getElem?_getD, List.getElem?_eq_getElem hj]

theorem pyInsert_of_nonneg {q : List α} {i : Int} {x : α}
    (h0 : 0 ≤ i) (h1 : i ≤ (q.length : Int)) :
    pyInsert q i x = q.insertIdx i.toNat x := by
  unfold pyInsert
  rw [if_neg (by omega)]
  congr 1
  omega

/-- Reduction of `move` on a pair of valid 1-based indices: the element at
`f` is erased and reinserted at position `t`, and the success reply is
sent. -/
theorem move_eq_of_valid (q : List Track) (f t : Int)
    (hf1 : 1 ≤ f) (hf2 : f ≤ (q.length : Int))
    (ht1 : 1 ≤ t) (ht2 : t ≤ (q.length : Int)) :
    move q f t =
      (List.insertIdx (t - 1).toNat (q.getD (f - 1).toNat default)
        (q.eraseIdx (f - 1).toNat),
       some (MoveReply.moved ((q.getD (f - 1).toNat default).title) t)) := by
  have hgf : pyGet q (f - 1) = some (q.getD (f - 1).toNat default) :=
    pyGet_of_valid (by omega) (by omega)
  have hgt : pyGet q (t - 1) = some (q.getD (t - 1).toNat default) :=
    pyGet_of_valid (by omega) (by omega)
  have hd : pyDel q (f - 1) = some (q.eraseIdx (f - 1).toNat) :=
    pyDel_eq_some (pyIdx_eq_some_of_nonneg (by omega) (by omega))
  have hlen : (q.eraseIdx (f - 1).toNat).length = q.length - 1 := by
    rw [List.length_eraseIdx]
    split <;> omega
  simp only [move, hgf, hgt, hd]
  rw [pyInsert_of_nonneg (by omega) (by omega)]

/-! ### Claim theorems -/

/-- Claim C3: on a non-empty queue, `remove index` with
`1 ≤ index ≤ length` deletes exactly the element at that 1-based position
— entries before it keep their positions, entries after it close the gap
by shifting down one — and reports the removed track; with `index < 1` or
`index > length` it replies `Invalid track number!` and leaves the queue
unchanged. -/
theorem remove_spec_c3 (q : List Track) (index : Int) (hq : q ≠ []) :
    (1 ≤ index → index ≤ (q.length : Int) →
      remove q index =
        (q.eraseIdx (index - 1).toNat,
         RemoveReply.removed ((q.getD (index - 1).toNat default).title)) ∧
      (q.eraseIdx (index - 1).toNat).length = q.length - 1 ∧
      (∀ j : Nat, j < (index - 1).toNat →
        (q.eraseIdx (index - 1).toNat)[j]? = q[j]?) ∧
      (∀ j : Nat, (index - 1).toNat ≤ j →
        (q.eraseIdx (index - 1).toNat)[j]? = q[j + 1]?)) ∧
    ((index < 1 ∨ (q.length : Int) < index) →
      remove q index = (q, RemoveReply.invalidTrackNumber)) := by
  have hqe : ¬ (q.isEmpty = true) := by
    simpa using hq
  constructor
  · intro h1 h2
    refine ⟨?_, ?_, ?_, ?_⟩
    · unfold remove
      rw [if_neg hqe, if_neg (by omega)]
    · rw [List.length_eraseIdx]
      split <;> omega
    · intro j hj
      exact List.getElem?_eraseIdx_of_lt q (index - 1).toNat j hj
    · intro j hj
      exact List.getElem?_eraseIdx_of_ge q (index - 1).toNat j hj
  · intro h
    unfold remove
    rw [if_neg hqe, if_pos h]

theorem remove_spec_c3_witness :
    remove [tA, tB, tC] 2 = ([tA, tC], RemoveReply.removed "B") ∧
    remove [tA, tB, tC] 4 = ([tA, tB, tC], RemoveReply.invalidTrackNumber) := by
  refine ⟨?_, ?_⟩
  · have h := ((remove_spec_c3 [tA, tB, tC] 2 (by decide)).1 (by decide) (by decide)).1
    exact h.trans (by decide)
  · exact (remove_spec_c3 [tA, tB, tC] 4 (by decide)).2 (by decide)

/-- Claim C4: a successful `move f t` erases the element at 1-based
position `f` and reinserts it at position `t`, the relative order of all
other elements being untouched; on `[A, B, C]`, `move 1 3` yields
`[B, C, A]` and the subsequent `move 3 1` restores `[A, B, C]`; the
round trip is not an identity in general — with the accepted
negative-index argument `0`, `move 0 2` then `move 2 0` on `[A, B, C]`
are both successful yet do not restore the original queue. -/
theorem move_spec_c4 (q : List Track) (f t : Int)
    (hf1 : 1 ≤ f) (hf2 : f ≤ (q.length : Int))
    (ht1 : 1 ≤ t) (ht2 : t ≤ (q.length : Int)) :
    move q f t =
      (List.insertIdx (t - 1).toNat (q.getD (f - 1).toNat default)
        (q.eraseIdx (f - 1).toNat),
       some (MoveReply.moved ((q.getD (f - 1).toNat default).title) t)) ∧
    move [tA, tB, tC] 1 3 = ([tB, tC, tA], some (MoveReply.moved "A" 3)) ∧
    move [tB, tC, tA] 3 1 = ([tA, tB, tC], some (MoveReply.moved "A" 1)) ∧
    ((move [tA, tB, tC] 0 2).2.isSome = true ∧
     (move (move [tA, tB, tC] 0 2).1 2 0).2.isSome = true ∧
     (move (move [tA, tB, tC] 0 2).1 2 0).1 ≠ [tA, tB, tC]) :=
  ⟨move_eq_of_valid q f t hf1 hf2 ht1 ht2, by decide, by decide, by decide⟩

theorem move_spec_c4_witness :
    move [tA, tB, tC] 2 1 = ([tB, tA, tC], some (MoveReply.moved "B" 1)) := by
  have h :=
    (move_spec_c4 [tA, tB, tC] 2 1 (by decide) (by decide) (by decide) (by decide)).1
  exact h.trans (by decide)

/-- Claim C2 (counterexample): the claim demands an OutOfRange message and
an unchanged queue for every index outside `1..length`, but on queue
`[tA]` with `from = 2` the command sends no message at all, and on queue
`[tA, tB]` with `from = 0` — outside `1..2` — it mutates the queue
instead of failing. -/
theorem move_c2_counterexample :
    ((move [tA] 2 1).2 = none ∧ (move [tA] 2 1).1 = [tA]) ∧
    ((move [tA, tB] 0 1).1 = [tB, tA] ∧ (move [tA, tB] 0 1).1 ≠ [tA, tB] ∧
      (move [tA, tB] 0 1).2 = some (MoveReply.moved "B" 1)) := by
  decide

/-- Claim C2 (amended): when either index falls outside the range the
probe accepts — `f` or `t` outside `[1 - length, length]` — the `move`
command silently returns: no message is sent and the queue is left
unchanged. (Indices in `[1 - length, 0]` pass the probe via Python
negative indexing and do mutate the queue.) -/
theorem move_c2_out_of_range_silent (q : List Track) (f t : Int)
    (h : f < 1 - (q.length : Int) ∨ (q.length : Int) < f ∨
         t < 1 - (q.length : Int) ∨ (q.length : Int) < t) :
    move q f t = (q, none) := by
  have main : pyGet q (f - 1) = none ∨ pyGet q (t - 1) = none := by
    rcases h with h | h | h | h
    · exact Or.inl (pyGet_eq_none (pyIdx_eq_none (by omega)))
    · exact Or.inl (pyGet_eq_none (pyIdx_eq_none (by omega)))
    · exact Or.inr (pyGet_eq_none (pyIdx_eq_none (by omega)))
    · exact Or.inr (pyGet_eq_none (pyIdx_eq_none (by omega)))
  unfold move
  rcases hF : pyGet q (f - 1) with _ | tr <;>
    rcases hT : pyGet q (t - 1) with _ | tr2 <;>
      rcases hD : pyDel q (f - 1) with _ | q1 <;>
        simp_all

theorem move_c2_out_of_range_silent_witness :
    move [tA] 3 1 = ([tA], none) :=
  move_c2_out_of_range_silent [tA] 3 1 (by decide)

/-- Claim C10: `move` does not reject a `from` in `[1 - n, 0]` on a
non-empty queue of length `n`: the bounds probe evaluates
`queue[from - 1]`, a valid negative Python index, so the command succeeds;
in particular `move 0 t` removes the last element of the queue and
reinserts it at 1-based position `t`. -/
theorem move_c10_negative_from (q : List Track) (f t : Int)
    (hf1 : 1 - (q.length : Int) ≤ f) (hf2 : f ≤ 0)
    (ht1 : 1 ≤ t) (ht2 : t ≤ (q.length : Int)) :
    (move q f t).2.isSome = true ∧
    move q 0 t =
      (List.insertIdx (t - 1).toNat (q.getD (q.length - 1) default)
        (q.eraseIdx (q.length - 1)),
       some (MoveReply.moved ((q.getD (q.length - 1) default).title) t)) := by
  have hn : 1 ≤ q.length := by omega
  constructor
  · have hgf : pyGet q (f - 1) =
        some (q.getD ((q.length : Int) + (f - 1)).toNat default) :=
      pyGet_of_neg (by omega) (by omega)
    have hgt : pyGet q (t - 1) = some (q.getD (t - 1).toNat default) :=
      pyGet_of_valid (by omega) (by omega)
    have hd : pyDel q (f - 1) =
        some (q.eraseIdx ((q.length : Int) + (f - 1)).toNat) :=
      pyDel_eq_some (pyIdx_eq_some_of_neg (by omega) (by omega))
    simp [move, hgf, hgt, hd]
  · have e1 : ((q.length : Int) + ((0 : Int) - 1)).toNat = q.length - 1 := by
      omega
    have hgf : pyGet q ((0 : Int) - 1) = some (q.getD (q.length - 1) default) := by
      have hx := pyGet_of_neg (q := q) (i := (0 : Int) - 1) (by omega) (by omega)
      rwa [e1] at hx
    have hgt : pyGet q (t - 1) = some (q.getD (t - 1).toNat default) :=
      pyGet_of_valid (by omega) (by omega)
    have hd : pyDel q ((0 : Int) - 1) = some (q.eraseIdx (q.length - 1)) := by
      have hx := pyDel_eq_some (q := q)
        (pyIdx_eq_some_of_neg (i := (0 : Int) - 1) (by omega) (by omega))
      rwa [e1] at hx
    have hlen : (q.eraseIdx (q.length - 1)).length = q.length - 1 := by
      rw [List.length_eraseIdx]
      split <;> omega
    simp only [move, hgf, hgt, hd]
    rw [pyInsert_of_nonneg (by omega) (by omega)]

theorem move_c10_negative_from_witness :
    (move [tA, tB, tC] (-2) 2).2.isSome = true ∧
    move [tA, tB, tC] 0 2 = ([tA, tC, tB], some (MoveReply.moved "C" 2)) := by
  have h := move_c10_negative_from [tA, tB, tC] (-2) 2
    (by decide) (by decide) (by decide) (by decide)
  exact ⟨h.1, h.2.trans (by decide)⟩

/-- Claim C6: `clear` on a non-empty queue empties it and reports the
number of removed elements, the length before clearing; `clear` on an
empty queue leaves the length at 0, performs no mutation, and surfaces no
error — the reply is the informational `There's nothing to clear!`
embed. -/
theorem clear_spec_c6 (q : List Track) :
    (q ≠ [] → clear q = ([], ClearReply.cleared q.length)) ∧
    (q = [] → clear q = (q, ClearReply.nothingToClear)) := by
  constructor
  · intro h
    match q, h with
    | a :: l, _ => rfl
  · intro h
    subst h
    rfl

theorem clear_spec_c6_witness :
    clear [tA, tB] = ([], ClearReply.cleared 2) ∧
    clear ([] : List Track) = ([], ClearReply.nothingToClear) :=
  ⟨(clear_spec_c6 [tA, tB]).1 (by decide), (clear_spec_c6 []).2 rfl⟩

/-- Claim C1: when the player is not in the Playing state, `skip` replies
`Nothing is playing!` and performs no mutation — it issues no call to the
node and leaves the player, its queue, and its current track untouched;
when a track is playing, `skip` reports it and stops the current track,
advancing via the track-end event path. -/
theorem skip_spec_c1 (p : Player) :
    (p.state ≠ ConnState.playing → skip p = (p, [], SkipReply.nothingPlaying)) ∧
    (∀ track, p.state = ConnState.playing → p.current = some track →
      skip p = (p, [Action.stopPlayback], SkipReply.skipped track.title track.uri)) := by
  constructor
  · intro h
    simp [skip, Player.isPlaying, h]
  · intro track h1 h2
    simp [skip, Player.isPlaying, h1, Player.source, h2]

theorem skip_spec_c1_witness :
    skip { state := ConnState.connected, current := none, queue := [] } =
      ({ state := ConnState.connected, current := none, queue := [] }, [],
        SkipReply.nothingPlaying) ∧
    skip { state := ConnState.playing, current := some tA, queue := [tB] } =
      ({ state := ConnState.playing, current := some tA, queue := [tB] },
        [Action.stopPlayback], SkipReply.skipped "A" "a") := by
  constructor
  · exact (skip_spec_c1 _).1 (by decide)
  · exact ((skip_spec_c1 _).2 tA (by decide) (by decide)).trans (by decide)

/-- Claim C7: `play` appends every track the search resolved to at the
back of the queue — all tracks of a playlist in order, the first result
for a plain search — and, when nothing is playing, immediately starts
playback with the front of the queue popped; the reported playlist
position span is `(old length + 1)`-`(old length + track count)`. -/
theorem isPlaying_queue_update (p : Player) (q : List Track) :
    Player.isPlaying { state := p.state, current := p.current, queue := q } = p.isPlaying :=
  rfl

theorem play_spec_c7 (p : Player) (name : String) (tracks : List Track)
    (track0 : Track) (rest : List Track) (hts : tracks = track0 :: rest) :
    (p.isPlaying = false →
      play p (Search.playlist name tracks) =
        some ({ state := ConnState.playing,
                current := some ((p.queue ++ tracks).headD default),
                queue := (p.queue ++ tracks).tail },
              [Action.playTrack ((p.queue ++ tracks).headD default)],
              PlayReply.queuedPlaylist name tracks.length (p.queue.length + 1)
                (p.queue.length + tracks.length))) ∧
    (p.isPlaying = true →
      play p (Search.playlist name tracks) =
        some ({ p with queue := p.queue ++ tracks }, [],
              PlayReply.queuedPlaylist name tracks.length (p.queue.length + 1)
                (p.queue.length + tracks.length))) ∧
    (p.isPlaying = true →
      play p (Search.results tracks) =
        some ({ p with queue := p.queue ++ [track0] }, [],
              PlayReply.queuedTrack track0.title (p.queue.length + 1))) ∧
    (p.isPlaying = false →
      play p (Search.results tracks) =
        some ({ state := ConnState.playing,
                current := some ((p.queue ++ [track0]).headD default),
                queue := (p.queue ++ [track0]).tail },
              [Action.playTrack ((p.queue ++ [track0]).headD default)],
              PlayReply.noReply)) := by
  subst hts
  obtain ⟨y, ys, hyy⟩ : ∃ y ys, p.queue ++ track0 :: rest = y :: ys := by
    rcases p.queue with _ | ⟨a, l⟩
    · exact ⟨track0, rest, by simp⟩
    · exact ⟨a, l ++ track0 :: rest, by simp⟩
  obtain ⟨z, zs, hzz⟩ : ∃ z zs, p.queue ++ [track0] = z :: zs := by
    rcases p.queue with _ | ⟨a, l⟩
    · exact ⟨track0, [], by simp⟩
    · exact ⟨a, l ++ [track0], by simp⟩
  refine ⟨?_, ?_, ?_, ?_⟩
  · intro hPlay
    have hPlay1 : Player.isPlaying { p with queue := p.queue ++ track0 :: rest } = false :=
      hPlay
    simp [play, hPlay1, startQueued, hyy, List.length_append, isPlaying_queue_update, hPlay]
  · intro hPlay
    have hPlay1 : Player.isPlaying { p with queue := p.queue ++ track0 :: rest } = true :=
      hPlay
    simp [play, hPlay1, List.length_append]
  · intro hPlay
    have hPlay1 : Player.isPlaying { p with queue := p.queue ++ [track0] } = true :=
      hPlay
    simp [play, hPlay, hPlay1, List.length_append]
  · intro hPlay
    have hPlay1 : Player.isPlaying { p with queue := p.queue ++ [track0] } = false :=
      hPlay
    simp [play, hPlay, hPlay1, startQueued, hzz, isPlaying_queue_update]

theorem play_spec_c7_witness :
    play { state := ConnState.idle, current := none, queue := [] }
        (Search.playlist "mix" [tA, tB, tC]) =
      some ({ state := ConnState.playing, current := some tA, queue := [tB, tC] },
            [Action.playTrack tA],
            PlayReply.queuedPlaylist "mix" 3 1 3) ∧
    play { state := ConnState.idle, current := none, queue := [] }
        (Search.results [tA, tB]) =
      some ({ state := ConnState.playing, current := some tA, queue := [] },
            [Action.playTrack tA], PlayReply.noReply) := by
  constructor
  · have h := (play_spec_c7 { state := ConnState.idle, current := none, queue := [] }
      "mix" [tA, tB, tC] tA [tB, tC] rfl).1 (by decide)
    exact h.trans (by decide)
  · have h := (play_spec_c7 { state := ConnState.idle, current := none, queue := [] }
      "mix" [tA, tB] tA [tB] rfl).2.2.2 (by decide)
    exact h.trans (by decide)

/-- Claim C5: on a track-end event the handler waits for the next queue
item under a 300-second deadline: an item already available or arriving
before the deadline cancels the wait and is played immediately, while if
no item arrives in time the player is force-disconnected, so a play
request arriving after expiry finds the session already Disconnected. -/
theorem trackEnd_spec_c5 (p : Player) (track : Track) (instant : Nat) :
    (instant < 300 →
      trackEnd p (some (instant, track)) =
        ({ p with state := ConnState.playing, current := some track },
         [Action.playTrack track])) ∧
    (300 ≤ instant →
      trackEnd p (some (instant, track)) =
        ({ p with state := ConnState.disconnected, current := none },
         [Action.forceDisconnect]) ∧
      (trackEnd p (some (instant, track))).1.state = ConnState.disconnected) ∧
    trackEnd p none =
      ({ p with state := ConnState.disconnected, current := none },
       [Action.forceDisconnect]) := by
  refine ⟨?_, ?_, rfl⟩
  · intro h
    simp [trackEnd, h]
  · intro h
    have h' : ¬ instant < 300 := by omega
    constructor
    · simp [trackEnd, h']
    · simp [trackEnd, h']

theorem trackEnd_spec_c5_witness :
    trackEnd { state := ConnState.connected, current := none, queue := [] }
        (some (100, tA)) =
      ({ state := ConnState.playing, current := some tA, queue := [] },
       [Action.playTrack tA]) ∧
    (trackEnd { state := ConnState.connected, current := none, queue := [] }
        (some (301, tA))).1.state = ConnState.disconnected := by
  constructor
  · exact ((trackEnd_spec_c5 _ tA 100).1 (by decide)).trans (by decide)
  · exact ((trackEnd_spec_c5 _ tA 301).2.1 (by decide)).2

/-- Claim C8: when a voice-state update concerns the bot's own member,
its after-state has no channel, and a voice client exists, the handler
clears the queue, stops playback, and force-disconnects — from any state
and without any user-visible message; an update for another member, or
one where the bot still has a channel, leaves the player untouched and
issues no action. -/
theorem voice_update_spec_c8 (botId memberId : Nat) (p : Player) (after : VoiceState) :
    (memberId = botId → after.channel = none →
      on_voice_state_update botId memberId (some p) after =
        (some { p with queue := [], current := none, state := ConnState.disconnected },
         [Action.stopPlayback, Action.forceDisconnect])) ∧
    (memberId ≠ botId ∨ after.channel ≠ none →
      on_voice_state_update botId memberId (some p) after = (some p, [])) ∧
    (∀ vs : VoiceState, on_voice_state_update botId memberId none vs = (none, [])) := by
  refine ⟨?_, ?_, fun vs => rfl⟩
  · intro h1 h2
    simp [on_voice_state_update, h1, h2]
  · intro h
    have hn : ¬ (memberId = botId ∧ after.channel = none) := by tauto
    simp [on_voice_state_update, hn]

theorem voice_update_spec_c8_witness :
    on_voice_state_update 7 7
        (some { state := ConnState.playing, current := some tA, queue := [tB] })
        { channel := none } =
      (some { state := ConnState.disconnected, current := none, queue := [] },
       [Action.stopPlayback, Action.forceDisconnect]) ∧
    on_voice_state_update 7 9
        (some { state := ConnState.playing, current := some tA, queue := [tB] })
        { channel := none } =
      (some { state := ConnState.playing, current := some tA, queue := [tB] }, []) := by
  constructor
  · exact ((voice_update_spec_c8 7 7 _ _).1 rfl rfl).trans (by decide)
  · exact (voice_update_spec_c8 7 9 _ _).2.1 (by decide)

/-- Claim C9: every non-UserError failure raised inside a command is
caught at the command boundary: the caller-facing message is exactly the
failure's type name followed by its message, and the full traceback is
forwarded to the operator log channel — inlined when its length is at
most 4000 characters, attached as a file named `traceback.txt` when it
exceeds that threshold. -/
theorem cog_command_error_spec_c9 (e : InvokeError) :
    (cog_command_error (CmdError.commandInvokeError e)).1 =
      e.typeName ++ ": " ++ e.message ∧
    (e.traceback.length ≤ 4000 →
      (cog_command_error (CmdError.commandInvokeError e)).2 =
        some (LogPayload.inlined e.traceback)) ∧
    (4000 < e.traceback.length →
      (cog_command_error (CmdError.commandInvokeError e)).2 =
        some (LogPayload.attachedFile "traceback.txt" e.traceback)) := by
  refine ⟨rfl, ?_, ?_⟩
  · intro h
    simp [cog_command_error, h]
  · intro h
    have h' : ¬ e.traceback.length ≤ 4000 := by omega
    simp [cog_command_error, h']

theorem cog_command_error_spec_c9_witness :
    (cog_command_error (CmdError.commandInvokeError
        { typeName := "ZeroDivisionError", message := "division by zero",
          traceback := "Traceback (most recent call last): ..." })).1 =
      "ZeroDivisionError: division by zero" ∧
    (cog_command_error (CmdError.commandInvokeError
        { typeName := "ZeroDivisionError", message := "division by zero",
          traceback := "Traceback (most recent call last): ..." })).2 =
      some (LogPayload.inlined "Traceback (most recent call last): ...") ∧
    (cog_command_error (CmdError.commandInvokeError
        { typeName := "E", message := "m",
          traceback := String.mk (List.replicate 4001 'x') })).2 =
      some (LogPayload.attachedFile "traceback.txt"
        (String.mk (List.replicate 4001 'x'))) := by
  refine ⟨?_, ?_, ?_⟩
  · exact (cog_command_error_spec_c9 _).1
  · exact (cog_command_error_spec_c9 _).2.1 (by decide)
  · refine (cog_command_error_spec_c9 _).2.2 ?_
    show 4000 < (String.mk (List.replicate 4001 'x')).length
    have h1 : (String.mk (List.replicate 4001 'x')).length = 4001 := by
      show (List.replicate 4001 'x').length = 4001
      exact List.length_replicate 4001 'x'
    omega

end Stolfo
